import Mathlib

/-!
Shallow embedding of the task prioritization and project health engine of the
`agenda_personal` repository (`apps/tasks/business_logic.py`,
`apps/notifications/services.py`), together with proofs of the specification
claims about it.

Modelling conventions:
* Calendar dates (`datetime.date`) are integers counting days; `(d1 - d2).days`
  becomes integer subtraction.
* Timestamps (`datetime.datetime`, used only by the notification service) are
  natural numbers counting seconds; the `.date()` projection is division by
  86400.
* Python floats are modelled as exact rationals (`ℚ`); every score the engine
  produces is a small dyadic/decimal value, so all the comparisons in the code
  are exact.
* Django querysets become Lean lists; `queryset.filter(...)` becomes
  `List.filter`; the implicit clock `timezone.localdate()` is threaded as an
  explicit `today` parameter, as the specification prescribes.
-/

/-- `PriorityLevel` enum from `business_logic.py`. -/
inductive PriorityLevel where
  | critical
  | high
  | medium
  | low
  deriving DecidableEq, Repr

/-- `TaskUrgency` enum from `business_logic.py`. -/
inductive TaskUrgency where
  | overdue
  | due_today
  | due_this_week
  | due_next_week
  | no_deadline
  deriving DecidableEq, Repr

/-- Snapshot of a `Proyecto` row (`apps/projects/models.py`): status string,
optional estimated end date, name, and the aggregate `tareas.count()` used by
the importance rule. -/
structure Proyecto where
  id : Nat
  nombre : String
  estado : String
  fecha_fin_estimada : Option Int
  tareas_count : Nat
  deriving DecidableEq, Repr

/-- Snapshot of a `Tarea` row (`apps/tasks/models.py`): title, completion
flag, optional due date, creation date (`auto_now_add`, hence always present)
and optional project reference. -/
structure Tarea where
  id : Nat
  titulo : String
  completada : Bool
  fecha_asignada : Option Int
  fecha_creacion : Int
  proyecto : Option Proyecto
  deriving DecidableEq, Repr

/-- `TaskPriorityScore` value object from `business_logic.py`. -/
structure TaskPriorityScore where
  task_id : Nat
  priority_level : PriorityLevel
  urgency_level : TaskUrgency
  score : ℚ
  reasons : List String
  deriving DecidableEq, Repr

/-- `TaskPriorityScore.is_critical` property. -/
def TaskPriorityScore.is_critical (s : TaskPriorityScore) : Bool :=
  s.priority_level = PriorityLevel.critical

/-- `TaskPriorityScore.needs_attention` property (score ≥ 7.0). -/
def TaskPriorityScore.needs_attention (s : TaskPriorityScore) : Bool :=
  s.score ≥ 7

/-! Business constants of `TaskPrioritizationEngine`. -/

def OVERDUE_SCORE : ℚ := 10
def DUE_TODAY_SCORE : ℚ := 8
def DUE_THIS_WEEK_SCORE : ℚ := 6
def DUE_NEXT_WEEK_SCORE : ℚ := 4
def NO_DEADLINE_SCORE : ℚ := 2
def IMPORTANT_PROJECT_BONUS : ℚ := 2
def OLD_TASK_BONUS : ℚ := 1
def DAYS_THRESHOLD_OLD_TASK : Int := 7

/-- `TaskPrioritizationEngine._calculate_urgency_score`: maps the optional due
date and `today` to `(urgency_level, score, reason)`. -/
def calculate_urgency_score (tarea : Tarea) (today : Int) :
    TaskUrgency × ℚ × Option String :=
  match tarea.fecha_asignada with
  | none => (TaskUrgency.no_deadline, NO_DEADLINE_SCORE, some "Sin fecha límite")
  | some fecha =>
    let days_diff : Int := fecha - today
    if days_diff < 0 then
      (TaskUrgency.overdue, OVERDUE_SCORE,
        some ("Vencida hace " ++ toString (-days_diff) ++ " días"))
    else if days_diff = 0 then
      (TaskUrgency.due_today, DUE_TODAY_SCORE, some "Vence hoy")
    else if days_diff ≤ 7 then
      (TaskUrgency.due_this_week, DUE_THIS_WEEK_SCORE,
        some ("Vence en " ++ toString days_diff ++ " días"))
    else if days_diff ≤ 14 then
      (TaskUrgency.due_next_week, DUE_NEXT_WEEK_SCORE,
        some ("Vence en " ++ toString days_diff ++ " días"))
    else
      (TaskUrgency.no_deadline, NO_DEADLINE_SCORE,
        some ("Vence en " ++ toString days_diff ++ " días"))

/-- `TaskPrioritizationEngine._is_important_project`: status must be
`en_curso`; then either the estimated end date lies within the next 30 days
(inclusive on both ends) or the project has at least 5 tasks. -/
def is_important_project (proyecto : Proyecto) (today : Int) : Bool :=
  if proyecto.estado ≠ "en_curso" then
    false
  else if (match proyecto.fecha_fin_estimada with
           | some fin =>
             let days_to_deadline := fin - today
             decide (0 ≤ days_to_deadline) && decide (days_to_deadline ≤ 30)
           | none => false) then
    true
  else if proyecto.tareas_count ≥ 5 then
    true
  else
    false

/-- `TaskPrioritizationEngine._is_old_task`: strictly more than 7 days old. -/
def is_old_task (created_date today : Int) : Bool :=
  decide (today - created_date > DAYS_THRESHOLD_OLD_TASK)

/-- `TaskPrioritizationEngine._score_to_priority_level`. -/
def score_to_priority_level (score : ℚ) : PriorityLevel :=
  if score ≥ 9 then PriorityLevel.critical
  else if score ≥ 7 then PriorityLevel.high
  else if score ≥ 5 then PriorityLevel.medium
  else PriorityLevel.low

/-- `TaskPrioritizationEngine.calculate_priority_score`: urgency base score,
plus the important-project bonus, plus the old-task bonus; the final score is
mapped to a categorical priority level. -/
def calculate_priority_score (tarea : Tarea) (today : Int) : TaskPriorityScore :=
  let u := calculate_urgency_score tarea today
  let score : ℚ := 0 + u.2.1
  let reasons : List String :=
    match u.2.2 with
    | some r => [r]
    | none => []
  let step2 : ℚ × List String :=
    match tarea.proyecto with
    | some p =>
      if is_important_project p today then
        (score + IMPORTANT_PROJECT_BONUS,
          reasons ++ ["Proyecto importante: " ++ p.nombre])
      else (score, reasons)
    | none => (score, reasons)
  let step3 : ℚ × List String :=
    if is_old_task tarea.fecha_creacion today then
      (step2.1 + OLD_TASK_BONUS, step2.2 ++ ["Tarea antigua (más de 7 días)"])
    else step2
  { task_id := tarea.id
    priority_level := score_to_priority_level step3.1
    urgency_level := u.1
    score := step3.1
    reasons := step3.2 }

/-- Stable insertion used to model Python's stable `sorted(..., reverse=True)`:
an element coming earlier in the input is inserted before the first element
whose score is not strictly greater, so equal scores keep input order. -/
def insert_by_score_desc (x : TaskPriorityScore) :
    List TaskPriorityScore → List TaskPriorityScore
  | [] => [x]
  | y :: ys =>
    if x.score < y.score then y :: insert_by_score_desc x ys
    else x :: y :: ys

/-- Stable descending sort by `score`, modelling
`sorted(results, key=lambda x: x.score, reverse=True)`. -/
def sort_by_score_desc : List TaskPriorityScore → List TaskPriorityScore
  | [] => []
  | x :: xs => insert_by_score_desc x (sort_by_score_desc xs)

/-- `TaskPrioritizationEngine.prioritize_tasks` (final `apps/tasks` copy):
filter to pending tasks, score each, sort by score descending (stable). -/
def prioritize_tasks (queryset : List Tarea) (today : Int) :
    List TaskPriorityScore :=
  let pending_tasks := queryset.filter (fun t => t.completada = false)
  let results := pending_tasks.map (fun t => calculate_priority_score t today)
  sort_by_score_desc results

/-! ### Project progress calculator -/

/-- Python's `round` with one fractional digit uses round-half-to-even on the
scaled value; this is the tie-breaking integer rounding. -/
def round_half_even (x : ℚ) : Int :=
  let f := ⌊x⌋
  if x - f < 1 / 2 then f
  else if x - f > 1 / 2 then f + 1
  else if f % 2 = 0 then f else f + 1

/-- `round(x, 1)` from `calculate_advanced_progress`. -/
def py_round_1 (x : ℚ) : ℚ := (round_half_even (x * 10) : ℚ) / 10

/-- `round(x, 2)` from `calculate_advanced_progress`. -/
def py_round_2 (x : ℚ) : ℚ := (round_half_even (x * 100) : ℚ) / 100

/-- Python's `int()` on a number: truncation toward zero. -/
def py_int (x : ℚ) : Int :=
  if 0 ≤ x then ⌊x⌋ else ⌈x⌉

/-- `ProjectProgressCalculator._calculate_velocity`: completed tasks whose
creation date falls in the trailing 30 days, divided by 30. -/
def calculate_velocity (completed_tasks : List Tarea) (today : Int) : ℚ :=
  let thirty_days_ago := today - 30
  let recent_completions :=
    (completed_tasks.filter (fun t => decide (t.fecha_creacion ≥ thirty_days_ago))).length
  (recent_completions : ℚ) / 30

/-- `ProjectProgressCalculator._estimate_completion_date`: `none` unless the
velocity is strictly positive, else today plus the truncated quotient. -/
def estimate_completion_date (pending_count : Nat) (velocity : ℚ)
    (planned_end : Option Int) (today : Int) : Option Int :=
  if velocity ≤ 0 then none
  else
    let days_needed : ℚ := (pending_count : ℚ) / velocity
    some (today + py_int days_needed)

/-- `ProjectProgressCalculator._assess_project_health`: thresholds on the
completion percentage only; the two date parameters are accepted but unused,
exactly as in the source. -/
def assess_project_health (completion_percentage : ℚ)
    (estimated_completion planned_end : Option Int) : String :=
  if completion_percentage ≥ 90 then "excellent"
  else if completion_percentage ≥ 70 then "good"
  else if completion_percentage ≥ 50 then "fair"
  else if completion_percentage ≥ 25 then "poor"
  else "critical"

/-- One entry of the `critical_tasks` shortlist. -/
structure CriticalTaskEntry where
  task : Tarea
  reasons : List String
  deriving DecidableEq, Repr

/-- `ProjectProgressCalculator._identify_critical_tasks`: the first five
pending tasks in given order, each tagged with a criticality reason. The
branch order (`days_left <= 3` before `days_left < 0`) is kept exactly as in
the source. -/
def identify_critical_tasks (pending_tasks : List Tarea) (today : Int) :
    List CriticalTaskEntry :=
  (pending_tasks.take 5).map (fun task =>
    let criticality_reason : List String :=
      match task.fecha_asignada with
      | some fecha =>
        let days_left := fecha - today
        if days_left ≤ 3 then ["Vence pronto"]
        else if days_left < 0 then ["Vencido"]
        else []
      | none => ["Sin fecha límite"]
    { task := task, reasons := criticality_reason })

/-- The dictionary returned by
`ProjectProgressCalculator.calculate_advanced_progress`. -/
structure ProgressResult where
  completion_percentage : ℚ
  velocity : ℚ
  estimated_completion : Option Int
  health_status : String
  critical_tasks : List CriticalTaskEntry
  total_tasks : Nat
  completed_tasks : Nat
  pending_tasks : Nat
  deriving DecidableEq, Repr

/-- `ProjectProgressCalculator.calculate_advanced_progress`; the queryset
`proyecto.tareas.all()` is passed as the explicit list `tareas`. -/
def calculate_advanced_progress (proyecto : Proyecto) (tareas : List Tarea)
    (today : Int) : ProgressResult :=
  let all_tasks := tareas
  let completed_tasks := all_tasks.filter (fun t => t.completada = true)
  let pending_tasks := all_tasks.filter (fun t => t.completada = false)
  let total_count := all_tasks.length
  let completed_count := completed_tasks.length
  let completion_percentage : ℚ :=
    if total_count > 0 then (completed_count : ℚ) / (total_count : ℚ) * 100 else 0
  let velocity := calculate_velocity completed_tasks today
  let estimated_completion :=
    estimate_completion_date pending_tasks.length velocity
      proyecto.fecha_fin_estimada today
  let health_status :=
    assess_project_health completion_percentage estimated_completion
      proyecto.fecha_fin_estimada
  let critical_tasks := identify_critical_tasks pending_tasks today
  { completion_percentage := py_round_1 completion_percentage
    velocity := py_round_2 velocity
    estimated_completion := estimated_completion
    health_status := health_status
    critical_tasks := critical_tasks
    total_tasks := total_count
    completed_tasks := completed_count
    pending_tasks := pending_tasks.length }

/-! ### Notification decision service -/

/-- Snapshot of a `Notification` row (`apps/notifications/models.py`); the
creation timestamp counts seconds. -/
structure Notification where
  usuario : Nat
  titulo : String
  mensaje : String
  tipo : String
  subtipo : String
  tarea_relacionada : Option Nat
  proyecto_relacionado : Option Nat
  fecha_creacion : Nat
  deriving DecidableEq, Repr

/-- `.date()` projection of a second-counting timestamp. -/
def ts_date (t : Nat) : Nat := t / 86400

/-- The shared filter kwargs of both duplicate queries in
`_create_critical_task_notification`:
`usuario=..., tarea_relacionada=..., tipo='task', subtipo='critical'`. -/
def critical_match (usuario : Nat) (tarea_id : Nat) (n : Notification) : Bool :=
  n.usuario == usuario && n.tarea_relacionada == some tarea_id &&
    n.tipo == "task" && n.subtipo == "critical"

/-- `NotificationService._create_critical_task_notification`: suppress when a
matching event exists on today's calendar date or within the trailing 24
hours; otherwise create the event. The notification store is passed and
returned explicitly; `now` is the current timestamp. -/
def create_critical_task_notification (store : List Notification) (now : Nat)
    (usuario : Nat) (tarea : Tarea) (task_score : TaskPriorityScore) :
    Option Notification × List Notification :=
  let today := ts_date now
  let existing_today :=
    store.filter (fun n =>
      critical_match usuario tarea.id n && ts_date n.fecha_creacion == today)
  if existing_today.isEmpty = false then (none, store)
  else
    let last_24h := now - 86400
    let recent_notifications :=
      (store.filter (fun n =>
        critical_match usuario tarea.id n &&
          decide (n.fecha_creacion ≥ last_24h))).length
    if recent_notifications > 0 then (none, store)
    else
      let reasons_text :=
        if task_score.reasons.isEmpty then "Análisis de prioridad"
        else String.intercalate ", " task_score.reasons
      let notification : Notification :=
        { usuario := usuario
          titulo := "🚨 Tarea Crítica: " ++ tarea.titulo
          mensaje := "Tu tarea \"" ++ tarea.titulo ++
            "\" requiere atención inmediata. Razones: " ++ reasons_text ++
            ". Prioridad calculada: " ++ toString task_score.score ++ "/10"
          tipo := "task"
          subtipo := "critical"
          tarea_relacionada := some tarea.id
          proyecto_relacionado := none
          fecha_creacion := now }
      (some notification, notification :: store)

/-- The per-task body of `NotificationService.generate_task_notifications`:
only Critical-scored tasks reach `_create_critical_task_notification`. -/
def evaluate_task (store : List Notification) (now : Nat) (usuario : Nat)
    (tarea : Tarea) (task_score : TaskPriorityScore) :
    Option Notification × List Notification :=
  if task_score.priority_level = PriorityLevel.critical then
    create_critical_task_notification store now usuario tarea task_score
  else (none, store)

/-! ### Specification-side definition used for the refinement claim C3 -/

/-- Modelled from the spec: "A project is important iff status == in-progress
AND (estimated end date is within [0, 30] days from today OR task count ≥ 5)".
Written from the spec sentence, to be compared with `is_important_project`. -/
def important_project_spec (p : Proyecto) (today : Int) : Bool :=
  (p.estado == "en_curso") &&
    ((match p.fecha_fin_estimada with
      | some fin => decide (0 ≤ fin - today ∧ fin - today ≤ 30)
      | none => false) ||
     decide (p.tareas_count ≥ 5))

/-! ### Concrete fixtures used by witnesses and counterexamples -/

def task_overdue : Tarea :=
  { id := 1, titulo := "Informe", completada := false,
    fecha_asignada := some (-2), fecha_creacion := -10, proyecto := none }

def task_completed : Tarea :=
  { id := 2, titulo := "Hecha", completada := true,
    fecha_asignada := some (-5), fecha_creacion := 0, proyecto := none }

def demo_score : TaskPriorityScore :=
  { task_id := 1, priority_level := PriorityLevel.critical,
    urgency_level := TaskUrgency.overdue, score := 11, reasons := [] }

/-- Completed scenario task, created 5 days before `today`. -/
def scenario_completed (i : Nat) (today : Int) : Tarea :=
  { id := i, titulo := "hecha", completada := true,
    fecha_asignada := none, fecha_creacion := today - 5, proyecto := none }

/-- Pending scenario task. -/
def scenario_pending (i : Nat) (today : Int) : Tarea :=
  { id := i, titulo := "pendiente", completada := false,
    fecha_asignada := none, fecha_creacion := today - 5, proyecto := none }

def scenario_proyecto : Proyecto :=
  { id := 9, nombre := "Agenda", estado := "en_curso",
    fecha_fin_estimada := none, tareas_count := 5 }

/-- The §8 velocity scenario: 5 total tasks, 3 completed within the last 30
days, 2 pending. -/
def scenario_tasks (today : Int) : List Tarea :=
  [scenario_completed 1 today, scenario_completed 2 today,
   scenario_completed 3 today, scenario_pending 4 today,
   scenario_pending 5 today]

/-! ### Helper lemmas about the stable descending sort -/

lemma mem_insert_by_score_desc {a x : TaskPriorityScore}
    {l : List TaskPriorityScore} :
    a ∈ insert_by_score_desc x l ↔ a = x ∨ a ∈ l := by
  induction l with
  | nil => simp [insert_by_score_desc]
  | cons y ys ih =>
    by_cases h : x.score < y.score
    · simp [insert_by_score_desc, h, ih]
      tauto
    · simp [insert_by_score_desc, h]

lemma mem_sort_by_score_desc {a : TaskPriorityScore}
    {l : List TaskPriorityScore} :
    a ∈ sort_by_score_desc l ↔ a ∈ l := by
  induction l with
  | nil => simp [sort_by_score_desc]
  | cons x xs ih =>
    simp [sort_by_score_desc, mem_insert_by_score_desc, ih]

lemma pairwise_insert_by_score_desc {x : TaskPriorityScore}
    {l : List TaskPriorityScore}
    (hl : l.Pairwise (fun a b => b.score ≤ a.score)) :
    (insert_by_score_desc x l).Pairwise (fun a b => b.score ≤ a.score) := by
  induction l with
  | nil => simp [insert_by_score_desc]
  | cons y ys ih =>
    rcases List.pairwise_cons.mp hl with ⟨hy, hys⟩
    by_cases h : x.score < y.score
    · rw [insert_by_score_desc, if_pos h]
      refine List.pairwise_cons.mpr ⟨?_, ih hys⟩
      intro b hb
      rcases mem_insert_by_score_desc.mp hb with rfl | hb
      · exact le_of_lt h
      · exact hy b hb
    · rw [insert_by_score_desc, if_neg h]
      refine List.pairwise_cons.mpr ⟨?_, hl⟩
      intro b hb
      rcases List.mem_cons.mp hb with rfl | hb
      · exact le_of_not_lt h
      · exact le_trans (hy b hb) (le_of_not_lt h)

lemma sorted_sort_by_score_desc (l : List TaskPriorityScore) :
    (sort_by_score_desc l).Pairwise (fun a b => b.score ≤ a.score) := by
  induction l with
  | nil => simp [sort_by_score_desc]
  | cons x xs ih => exact pairwise_insert_by_score_desc ih

lemma filter_insert_by_score_desc (s : ℚ) (x : TaskPriorityScore)
    (l : List TaskPriorityScore) :
    (insert_by_score_desc x l).filter (fun e => decide (e.score = s)) =
      if x.score = s then
        x :: l.filter (fun e => decide (e.score = s))
      else
        l.filter (fun e => decide (e.score = s)) := by
  induction l with
  | nil =>
    by_cases hx : x.score = s <;>
      simp [insert_by_score_desc, List.filter, hx]
  | cons y ys ih =>
    by_cases h : x.score < y.score
    · rw [insert_by_score_desc, if_pos h]
      by_cases hy : y.score = s
      · have hx : ¬ x.score = s := by
          intro hx
          rw [hx, hy] at h
          exact lt_irrefl s h
        simp [List.filter_cons, hy, hx, ih]
      · simp [List.filter_cons, hy, ih]
    · rw [insert_by_score_desc, if_neg h]
      by_cases hx : x.score = s <;> simp [List.filter_cons, hx]

lemma filter_sort_by_score_desc (s : ℚ) (l : List TaskPriorityScore) :
    (sort_by_score_desc l).filter (fun e => decide (e.score = s)) =
      l.filter (fun e => decide (e.score = s)) := by
  induction l with
  | nil => simp [sort_by_score_desc]
  | cons x xs ih =>
    rw [sort_by_score_desc, filter_insert_by_score_desc]
    by_cases hx : x.score = s <;> simp [List.filter_cons, hx, ih]

/-! ### Helper lemmas about the scorer -/

lemma calculate_priority_score_score (tarea : Tarea) (today : Int) :
    (calculate_priority_score tarea today).score =
      (calculate_urgency_score tarea today).2.1 +
        (match tarea.proyecto with
         | some p => if is_important_project p today then IMPORTANT_PROJECT_BONUS else 0
         | none => 0) +
        (if is_old_task tarea.fecha_creacion today then OLD_TASK_BONUS else 0) := by
  unfold calculate_priority_score
  cases hp : tarea.proyecto with
  | none =>
    by_cases hold : is_old_task tarea.fecha_creacion today <;> simp [hold] <;> ring
  | some p =>
    by_cases himp : is_important_project p today <;>
      by_cases hold : is_old_task tarea.fecha_creacion today <;>
        simp [himp, hold] <;> ring

lemma calculate_priority_score_level (tarea : Tarea) (today : Int) :
    (calculate_priority_score tarea today).priority_level =
      score_to_priority_level (calculate_priority_score tarea today).score := by
  unfold calculate_priority_score
  rfl

lemma score_to_priority_level_iff (q : ℚ) :
    (score_to_priority_level q = PriorityLevel.critical ↔ 9 ≤ q) ∧
    (score_to_priority_level q = PriorityLevel.high ↔ 7 ≤ q ∧ q < 9) ∧
    (score_to_priority_level q = PriorityLevel.medium ↔ 5 ≤ q ∧ q < 7) ∧
    (score_to_priority_level q = PriorityLevel.low ↔ q < 5) := by
  unfold score_to_priority_level
  split_ifs with h1 h2 h3
  · exact ⟨iff_of_true rfl h1,
      iff_of_false (by decide) (fun h => absurd h.2 (not_lt.mpr h1)),
      iff_of_false (by decide) (fun h => absurd h.2 (not_lt.mpr (by linarith))),
      iff_of_false (by decide) (fun h => absurd h (not_lt.mpr (by linarith)))⟩
  · exact ⟨iff_of_false (by decide) (fun h => h1 h),
      iff_of_true rfl ⟨h2, not_le.mp h1⟩,
      iff_of_false (by decide) (fun h => absurd h2 (not_le.mpr h.2)),
      iff_of_false (by decide) (fun h => absurd h (not_lt.mpr (by linarith)))⟩
  · exact ⟨iff_of_false (by decide) (fun h => h1 h),
      iff_of_false (by decide) (fun h => h2 h.1),
      iff_of_true rfl ⟨h3, not_le.mp h2⟩,
      iff_of_false (by decide) (fun h => absurd h (not_lt.mpr h3))⟩
  · exact ⟨iff_of_false (by decide) (fun h => h1 h),
      iff_of_false (by decide) (fun h => h2 h.1),
      iff_of_false (by decide) (fun h => h3 h.1),
      iff_of_true rfl (not_le.mp h3)⟩

lemma urgency_base_cases (tarea : Tarea) (today : Int) :
    (calculate_urgency_score tarea today).2.1 = 2 ∨
    (calculate_urgency_score tarea today).2.1 = 4 ∨
    (calculate_urgency_score tarea today).2.1 = 6 ∨
    (calculate_urgency_score tarea today).2.1 = 8 ∨
    (calculate_urgency_score tarea today).2.1 = 10 := by
  unfold calculate_urgency_score
  cases tarea.fecha_asignada with
  | none =>
    simp [NO_DEADLINE_SCORE]
  | some fecha =>
    dsimp only
    split_ifs <;>
      simp [OVERDUE_SCORE, DUE_TODAY_SCORE, DUE_THIS_WEEK_SCORE,
        DUE_NEXT_WEEK_SCORE, NO_DEADLINE_SCORE]

lemma is_important_project_eq_spec (p : Proyecto) (today : Int) :
    is_important_project p today = important_project_spec p today := by
  unfold is_important_project important_project_spec
  by_cases he : p.estado = "en_curso"
  · cases hf : p.fecha_fin_estimada with
    | none =>
      by_cases hc : p.tareas_count ≥ 5 <;> simp [he, hc]
    | some fin =>
      by_cases hd : 0 ≤ fin - today ∧ fin - today ≤ 30
      · simp [he, hd.1, hd.2, decide_eq_true hd]
      · by_cases hc : p.tareas_count ≥ 5 <;>
          simp [he, hc, hd] <;> tauto
  · simp [he]

/-! ### Claim theorems -/

/-- Claim C1: every element of the output of `prioritize_tasks` is the score
of some input task whose completion flag is false; no completed task ever
contributes an element to the returned list. -/
theorem prioritize_tasks_excludes_completed (tasks : List Tarea) (today : Int) :
    ∀ s ∈ prioritize_tasks tasks today,
      ∃ t, t ∈ tasks ∧ t.completada = false ∧
        s = calculate_priority_score t today := by
  intro s hs
  unfold prioritize_tasks at hs
  rcases List.mem_map.mp (mem_sort_by_score_desc.mp hs) with ⟨t, ht, rfl⟩
  rcases List.mem_filter.mp ht with ⟨htm, hpred⟩
  exact ⟨t, htm, by simpa using hpred, rfl⟩

/-- Witness for C1 at a concrete two-task input. -/
theorem prioritize_tasks_excludes_completed_witness :
    ∃ t, t ∈ [task_completed, task_overdue] ∧ t.completada = false ∧
      calculate_priority_score task_overdue 0 = calculate_priority_score t 0 :=
  prioritize_tasks_excludes_completed [task_completed, task_overdue] 0
    (calculate_priority_score task_overdue 0)
    (by
      rw [show prioritize_tasks [task_completed, task_overdue] 0 =
        [calculate_priority_score task_overdue 0] from rfl]
      exact List.mem_singleton.mpr rfl)

/-- Claim C2: the urgency classifier follows the first-match rule table on
`days_diff = due_date - today`; in particular overdue is 10.0 for every
magnitude of lateness and dates more than 14 days out reuse the NoDeadline
urgency and 2.0 score. -/
theorem urgency_rule_table (tarea : Tarea) (today : Int) :
    (tarea.fecha_asignada = none →
      (calculate_urgency_score tarea today).1 = TaskUrgency.no_deadline ∧
      (calculate_urgency_score tarea today).2.1 = 2) ∧
    ∀ fecha, tarea.fecha_asignada = some fecha →
      (fecha - today < 0 →
        (calculate_urgency_score tarea today).1 = TaskUrgency.overdue ∧
        (calculate_urgency_score tarea today).2.1 = 10) ∧
      (fecha - today = 0 →
        (calculate_urgency_score tarea today).1 = TaskUrgency.due_today ∧
        (calculate_urgency_score tarea today).2.1 = 8) ∧
      (1 ≤ fecha - today ∧ fecha - today ≤ 7 →
        (calculate_urgency_score tarea today).1 = TaskUrgency.due_this_week ∧
        (calculate_urgency_score tarea today).2.1 = 6) ∧
      (8 ≤ fecha - today ∧ fecha - today ≤ 14 →
        (calculate_urgency_score tarea today).1 = TaskUrgency.due_next_week ∧
        (calculate_urgency_score tarea today).2.1 = 4) ∧
      (14 < fecha - today →
        (calculate_urgency_score tarea today).1 = TaskUrgency.no_deadline ∧
        (calculate_urgency_score tarea today).2.1 = 2) := by
  constructor
  · intro h
    simp [calculate_urgency_score, h, NO_DEADLINE_SCORE]
  · intro fecha hf
    refine ⟨fun hd => ?_, fun hd => ?_, fun hd => ?_, fun hd => ?_, fun hd => ?_⟩
    · simp [calculate_urgency_score, hf, hd, OVERDUE_SCORE]
    · simp [calculate_urgency_score, hf, hd, DUE_TODAY_SCORE]
    · simp [calculate_urgency_score, hf, hd.2, DUE_THIS_WEEK_SCORE,
        show ¬ fecha - today < 0 by omega, show ¬ fecha - today = 0 by omega]
    · simp [calculate_urgency_score, hf, hd.2, DUE_NEXT_WEEK_SCORE,
        show ¬ fecha - today < 0 by omega, show ¬ fecha - today = 0 by omega,
        show ¬ fecha - today ≤ 7 by omega]
    · simp [calculate_urgency_score, hf, NO_DEADLINE_SCORE,
        show ¬ fecha - today < 0 by omega, show ¬ fecha - today = 0 by omega,
        show ¬ fecha - today ≤ 7 by omega, show ¬ fecha - today ≤ 14 by omega]

/-- Witness for C2: a task due 2 days ago is Overdue with base score 10. -/
theorem urgency_rule_table_witness :
    (calculate_urgency_score task_overdue 0).1 = TaskUrgency.overdue ∧
    (calculate_urgency_score task_overdue 0).2.1 = 10 :=
  ((urgency_rule_table task_overdue 0).2 (-2) rfl).1 (by decide)

/-- Claim C3: the final score is the urgency base plus 2.0 exactly for an
important project (per the spec's importance formula) plus 1.0 exactly when
the task is strictly more than 7 days old, and the priority level follows the
9.0 / 7.0 / 5.0 thresholds. -/
theorem priority_score_formula (tarea : Tarea) (today : Int) :
    (calculate_priority_score tarea today).score =
      (calculate_urgency_score tarea today).2.1 +
        (match tarea.proyecto with
         | some p => if important_project_spec p today then (2 : ℚ) else 0
         | none => 0) +
        (if 7 < today - tarea.fecha_creacion then (1 : ℚ) else 0) ∧
    ((calculate_priority_score tarea today).priority_level = PriorityLevel.critical ↔
      9 ≤ (calculate_priority_score tarea today).score) ∧
    ((calculate_priority_score tarea today).priority_level = PriorityLevel.high ↔
      7 ≤ (calculate_priority_score tarea today).score ∧
        (calculate_priority_score tarea today).score < 9) ∧
    ((calculate_priority_score tarea today).priority_level = PriorityLevel.medium ↔
      5 ≤ (calculate_priority_score tarea today).score ∧
        (calculate_priority_score tarea today).score < 7) ∧
    ((calculate_priority_score tarea today).priority_level = PriorityLevel.low ↔
      (calculate_priority_score tarea today).score < 5) := by
  constructor
  · rw [calculate_priority_score_score]
    have h1 : (match tarea.proyecto with
        | some p => if is_important_project p today then IMPORTANT_PROJECT_BONUS else 0
        | none => (0 : ℚ)) =
        (match tarea.proyecto with
        | some p => if important_project_spec p today then (2 : ℚ) else 0
        | none => 0) := by
      cases tarea.proyecto with
      | none => rfl
      | some p =>
        dsimp only
        rw [is_important_project_eq_spec]
        simp [IMPORTANT_PROJECT_BONUS]
    have h2 : (if is_old_task tarea.fecha_creacion today then OLD_TASK_BONUS else (0 : ℚ)) =
        (if 7 < today - tarea.fecha_creacion then (1 : ℚ) else 0) := by
      simp [is_old_task, OLD_TASK_BONUS, DAYS_THRESHOLD_OLD_TASK]
    rw [h1, h2]
  · rw [calculate_priority_score_level]
    exact score_to_priority_level_iff _

/-- Claim C7: the output of `prioritize_tasks` is non-increasing in score, and
the subsequence at any fixed score equals the corresponding subsequence of the
scored pending input, so equal-score tasks retain their input order. -/
theorem prioritize_tasks_sorted_stable (tasks : List Tarea) (today : Int) :
    (prioritize_tasks tasks today).Pairwise (fun a b => b.score ≤ a.score) ∧
    ∀ s : ℚ,
      (prioritize_tasks tasks today).filter (fun e => decide (e.score = s)) =
        ((tasks.filter (fun t => t.completada = false)).map
          (fun t => calculate_priority_score t today)).filter
            (fun e => decide (e.score = s)) := by
  constructor
  · exact sorted_sort_by_score_desc _
  · intro s
    exact filter_sort_by_score_desc s _

/-- Claim C10: the urgency base score is always one of 2, 4, 6, 8, 10, and the
final score always lies in the closed interval [2, 13]. -/
theorem priority_score_bounds (tarea : Tarea) (today : Int) :
    ((calculate_urgency_score tarea today).2.1 = 2 ∨
     (calculate_urgency_score tarea today).2.1 = 4 ∨
     (calculate_urgency_score tarea today).2.1 = 6 ∨
     (calculate_urgency_score tarea today).2.1 = 8 ∨
     (calculate_urgency_score tarea today).2.1 = 10) ∧
    2 ≤ (calculate_priority_score tarea today).score ∧
    (calculate_priority_score tarea today).score ≤ 13 := by
  refine ⟨urgency_base_cases tarea today, ?_⟩
  have hs := calculate_priority_score_score tarea today
  have hbase : 2 ≤ (calculate_urgency_score tarea today).2.1 ∧
      (calculate_urgency_score tarea today).2.1 ≤ 10 := by
    rcases urgency_base_cases tarea today with h | h | h | h | h <;>
      rw [h] <;> norm_num
  have hproj : (0 : ℚ) ≤ (match tarea.proyecto with
      | some p => if is_important_project p today then IMPORTANT_PROJECT_BONUS else 0
      | none => (0 : ℚ)) ∧
      (match tarea.proyecto with
      | some p => if is_important_project p today then IMPORTANT_PROJECT_BONUS else 0
      | none => (0 : ℚ)) ≤ 2 := by
    cases tarea.proyecto with
    | none => norm_num
    | some p =>
      dsimp only
      split_ifs <;> norm_num [IMPORTANT_PROJECT_BONUS]
  have hold : (0 : ℚ) ≤ (if is_old_task tarea.fecha_creacion today then OLD_TASK_BONUS else (0 : ℚ)) ∧
      (if is_old_task tarea.fecha_creacion today then OLD_TASK_BONUS else (0 : ℚ)) ≤ 1 := by
    split_ifs <;> norm_num [OLD_TASK_BONUS]
  constructor
  · rw [hs]
    linarith [hbase.1, hproj.1, hold.1]
  · rw [hs]
    linarith [hbase.2, hproj.2, hold.2]

/-- Claim C5: the estimated completion date is `none` exactly when the
velocity is not strictly positive, otherwise today plus the truncated
quotient; and on the §8 scenario (5 tasks, 3 completed within the last 30
days, 2 pending) the velocity is 3/30 and the estimate is today + 20. -/
theorem estimate_completion_rule (pending_count : Nat) (velocity : ℚ)
    (planned_end : Option Int) (today : Int) :
    (velocity ≤ 0 →
      estimate_completion_date pending_count velocity planned_end today = none) ∧
    (0 < velocity →
      estimate_completion_date pending_count velocity planned_end today =
        some (today + py_int ((pending_count : ℚ) / velocity))) ∧
    (calculate_advanced_progress scenario_proyecto (scenario_tasks today) today).velocity =
      3 / 30 ∧
    (calculate_advanced_progress scenario_proyecto (scenario_tasks today) today).estimated_completion =
      some (today + 20) := by
  have h30 : today - 5 ≥ today - 30 := by omega
  refine ⟨fun h => ?_, fun h => ?_, ?_, ?_⟩
  · simp [estimate_completion_date, h]
  · simp [estimate_completion_date, not_le.mpr h]
  · simp [calculate_advanced_progress, scenario_tasks, scenario_completed,
      scenario_pending, calculate_velocity, List.filter, h30, py_round_2,
      round_half_even]
    norm_num
  · simp [calculate_advanced_progress, scenario_tasks, scenario_completed,
      scenario_pending, calculate_velocity, List.filter, h30,
      estimate_completion_date, py_int]
    norm_num

/-- Witness for C5: zero velocity yields no estimate; velocity 1/10 with two
pending tasks yields an estimate 20 days out. -/
theorem estimate_completion_rule_witness :
    estimate_completion_date 2 0 none 0 = none ∧
    estimate_completion_date 2 (1 / 10) none 0 = some 20 := by
  constructor
  · exact (estimate_completion_rule 2 0 none 0).1 le_rfl
  · have h := (estimate_completion_rule 2 (1 / 10) none 0).2.1 (by norm_num)
    rw [h]
    norm_num [py_int]

/-- Claim C8: a project with zero tasks yields completion 0.0, velocity 0.0,
no estimated completion and health status "critical"; the zero-denominator
branches are taken, no division is performed. -/
theorem zero_task_progress (proyecto : Proyecto) (today : Int) :
    (calculate_advanced_progress proyecto [] today).completion_percentage = 0 ∧
    (calculate_advanced_progress proyecto [] today).velocity = 0 ∧
    (calculate_advanced_progress proyecto [] today).estimated_completion = none ∧
    (calculate_advanced_progress proyecto [] today).health_status = "critical" := by
  refine ⟨?_, ?_, ?_, ?_⟩ <;>
    simp [calculate_advanced_progress, calculate_velocity,
      estimate_completion_date, assess_project_health, identify_critical_tasks,
      py_round_1, py_round_2, round_half_even] <;>
    norm_num

/-- Claim C9: `_assess_project_health` is independent of its two date
parameters, and is determined by the completion-percentage thresholds
90 / 70 / 50 / 25. -/
theorem assess_health_ignores_dates (cp : ℚ) (ec₁ ec₂ pe₁ pe₂ : Option Int) :
    assess_project_health cp ec₁ pe₁ = assess_project_health cp ec₂ pe₂ ∧
    (90 ≤ cp → assess_project_health cp ec₁ pe₁ = "excellent") ∧
    (70 ≤ cp ∧ cp < 90 → assess_project_health cp ec₁ pe₁ = "good") ∧
    (50 ≤ cp ∧ cp < 70 → assess_project_health cp ec₁ pe₁ = "fair") ∧
    (25 ≤ cp ∧ cp < 50 → assess_project_health cp ec₁ pe₁ = "poor") ∧
    (cp < 25 → assess_project_health cp ec₁ pe₁ = "critical") := by
  refine ⟨rfl, fun h => ?_, fun h => ?_, fun h => ?_, fun h => ?_, fun h => ?_⟩
  · rw [assess_project_health, if_pos h]
  · rw [assess_project_health, if_neg (not_le.mpr h.2), if_pos h.1]
  · rw [assess_project_health, if_neg (not_le.mpr (by linarith [h.2])),
      if_neg (not_le.mpr h.2), if_pos h.1]
  · rw [assess_project_health, if_neg (not_le.mpr (by linarith [h.2])),
      if_neg (not_le.mpr (by linarith [h.2])), if_neg (not_le.mpr h.2),
      if_pos h.1]
  · rw [assess_project_health, if_neg (not_le.mpr (by linarith)),
      if_neg (not_le.mpr (by linarith)), if_neg (not_le.mpr (by linarith)),
      if_neg (not_le.mpr h)]

/-- Witness for C9 at a concrete completion percentage and distinct date
arguments. -/
theorem assess_health_ignores_dates_witness :
    assess_project_health 95 none (some 3) = assess_project_health 95 (some 7) none ∧
    assess_project_health 95 none (some 3) = "excellent" :=
  ⟨(assess_health_ignores_dates 95 none (some 7) (some 3) none).1,
   (assess_health_ignores_dates 95 none (some 7) (some 3) none).2.1 (by norm_num)⟩

/-- Claim C6 (counter-evaluation): on a pending task due 2 days before today
the shortlist tags the entry "Vence pronto" ("Due soon"), not "Vencido"
("Overdue"): the `days_left < 0` branch of `_identify_critical_tasks` is
unreachable because `days_left <= 3` is tested first. -/
theorem identify_critical_tasks_overdue_tag :
    identify_critical_tasks [task_overdue] 0 =
      [{ task := task_overdue, reasons := ["Vence pronto"] }] := by
  rfl

/-! ### Helper lemmas about the notification duplicate check -/

lemma create_critical_suppresses (store : List Notification) (now : Nat)
    (usuario : Nat) (tarea : Tarea) (task_score : TaskPriorityScore)
    (h : ∃ n ∈ store, critical_match usuario tarea.id n = true ∧
      (ts_date n.fecha_creacion = ts_date now ∨ n.fecha_creacion ≥ now - 86400)) :
    create_critical_task_notification store now usuario tarea task_score =
      (none, store) := by
  obtain ⟨n, hn, hm, hd⟩ := h
  simp only [create_critical_task_notification]
  by_cases h1 : (store.filter (fun m =>
      critical_match usuario tarea.id m &&
        (ts_date m.fecha_creacion == ts_date now))).isEmpty = false
  · rw [if_pos h1]
  · rw [if_neg h1]
    have hemp : store.filter (fun m =>
        critical_match usuario tarea.id m &&
          (ts_date m.fecha_creacion == ts_date now)) = [] := by
      rcases he : (store.filter (fun m =>
          critical_match usuario tarea.id m &&
            (ts_date m.fecha_creacion == ts_date now))).isEmpty with _ | _
      · exact absurd he h1
      · exact List.isEmpty_iff.mp he
    have hnot := List.filter_eq_nil_iff.mp hemp n hn
    have h24 : n.fecha_creacion ≥ now - 86400 := by
      rcases hd with hd | hd
      · exact absurd (by simp [hm, hd]) hnot
      · exact hd
    have hmem : n ∈ store.filter (fun m =>
        critical_match usuario tarea.id m &&
          decide (m.fecha_creacion ≥ now - 86400)) :=
      List.mem_filter.mpr ⟨hn, by simp [hm, h24]⟩
    rw [if_pos (List.length_pos.mpr (List.ne_nil_of_mem hmem))]

lemma create_critical_some (store : List Notification) (now : Nat)
    (usuario : Nat) (tarea : Tarea) (task_score : TaskPriorityScore)
    (e : Notification) (store2 : List Notification)
    (h : create_critical_task_notification store now usuario tarea task_score =
      (some e, store2)) :
    store2 = e :: store ∧ e.fecha_creacion = now ∧
      critical_match usuario tarea.id e = true := by
  simp only [create_critical_task_notification] at h
  by_cases h1 : (store.filter (fun m =>
      critical_match usuario tarea.id m &&
        (ts_date m.fecha_creacion == ts_date now))).isEmpty = false
  · rw [if_pos h1] at h
    simp at h
  · rw [if_neg h1] at h
    by_cases h2 : 0 < (store.filter (fun m =>
        critical_match usuario tarea.id m &&
          decide (m.fecha_creacion ≥ now - 86400))).length
    · rw [if_pos h2] at h
      simp at h
    · rw [if_neg h2] at h
      obtain ⟨he, hs⟩ := Prod.mk.injEq .. ▸ h
      obtain rfl := Option.some.injEq .. ▸ he
      exact ⟨hs.symm, rfl, by simp [critical_match]⟩

/-- Claim C4: for a Critical-scored task the notification operation returns
no event exactly while a matching (user, task, type=task, subtipo=critical)
event exists on today's calendar date or within the trailing 24 hours,
otherwise it creates one; hence a second evaluation on the same calendar day
creates nothing, so the two evaluations produce exactly one event in total. -/
theorem evaluate_task_dedup (store : List Notification) (now now2 : Nat)
    (usuario : Nat) (tarea : Tarea) (task_score : TaskPriorityScore)
    (hcrit : task_score.priority_level = PriorityLevel.critical) :
    ((∃ n ∈ store, critical_match usuario tarea.id n = true ∧
        (ts_date n.fecha_creacion = ts_date now ∨ n.fecha_creacion ≥ now - 86400)) →
      evaluate_task store now usuario tarea task_score = (none, store)) ∧
    ((¬ ∃ n ∈ store, critical_match usuario tarea.id n = true ∧
        (ts_date n.fecha_creacion = ts_date now ∨ n.fecha_creacion ≥ now - 86400)) →
      ∃ e, evaluate_task store now usuario tarea task_score = (some e, e :: store) ∧
        e.fecha_creacion = now ∧ critical_match usuario tarea.id e = true) ∧
    (∀ e store2,
      evaluate_task store now usuario tarea task_score = (some e, store2) →
      ts_date now2 = ts_date now →
      (evaluate_task store2 now2 usuario tarea task_score).1 = none) := by
  have heval : evaluate_task store now usuario tarea task_score =
      create_critical_task_notification store now usuario tarea task_score := by
    simp [evaluate_task, hcrit]
  refine ⟨?_, ?_, ?_⟩
  · intro h
    rw [heval]
    exact create_critical_suppresses store now usuario tarea task_score h
  · intro h
    rw [heval]
    have hf1 : store.filter (fun m =>
        critical_match usuario tarea.id m &&
          (ts_date m.fecha_creacion == ts_date now)) = [] := by
      refine List.filter_eq_nil_iff.mpr (fun n hn => ?_)
      intro hb
      rcases Bool.and_eq_true .. ▸ hb with ⟨hm, hday⟩
      exact h ⟨n, hn, hm, Or.inl (by simpa using hday)⟩
    have hf2 : store.filter (fun m =>
        critical_match usuario tarea.id m &&
          decide (m.fecha_creacion ≥ now - 86400)) = [] := by
      refine List.filter_eq_nil_iff.mpr (fun n hn => ?_)
      intro hb
      rcases Bool.and_eq_true .. ▸ hb with ⟨hm, h24⟩
      exact h ⟨n, hn, hm, Or.inr (of_decide_eq_true h24)⟩
    simp only [create_critical_task_notification, hf1, hf2]
    simp [critical_match]
  · intro e store2 hsome hday
    have h1 := create_critical_some store now usuario tarea task_score e store2
      (heval ▸ hsome)
    have heval2 : evaluate_task store2 now2 usuario tarea task_score =
        create_critical_task_notification store2 now2 usuario tarea task_score := by
      simp [evaluate_task, hcrit]
    rw [heval2, create_critical_suppresses store2 now2 usuario tarea task_score
      ⟨e, by simp [h1.1], h1.2.2, Or.inl (by rw [h1.2.1, hday])⟩]

/-- Witness for C4: on an empty store a Critical score creates exactly one
event carrying the current timestamp and matching the duplicate key. -/
theorem evaluate_task_dedup_witness :
    ∃ e, evaluate_task [] 100000 7 task_overdue demo_score = (some e, [e]) ∧
      e.fecha_creacion = 100000 ∧ critical_match 7 task_overdue.id e = true :=
  (evaluate_task_dedup [] 100000 120000 7 task_overdue demo_score rfl).2.1
    (by simp)
